import Mathlib

/-!
Shallow embedding of the trading engine of the `binance-futures-bot`
repository (TypeScript), restricted to the data model and operations the
verified claims are about.  All JavaScript numbers are modelled as `ℚ`;
timestamps are `ℕ` milliseconds.  `jsNumOr` models the JavaScript
`a || b` fallback on numbers (where `0`, `NaN` and `undefined` are falsy,
modelled here as `none` / `0`), and `jsRound` models `Math.round`
(half away from zero upward, i.e. `⌊x + 1/2⌋`).
-/

/-- Trade direction, from `types/index.ts` (`Direction`). -/
inductive Direction where
  | LONG
  | SHORT
  | IDLE
deriving DecidableEq, Repr

/-- Advisory risk level, from `types/index.ts` (`RiskLevel`). -/
inductive RiskLevel where
  | LOW
  | MEDIUM
  | HIGH
deriving DecidableEq, Repr

/-- Engine status, from `types/index.ts` (`PositionStatus`). -/
inductive PositionStatus where
  | IDLE
  | MONITORING
  | OPENING
  | POSITION
  | CLOSING
  | HALTED
deriving DecidableEq, Repr

/-- JavaScript `a || b` on an optional number: `undefined` and `0` fall
through to the default. -/
def jsNumOr (a : Option ℚ) (b : ℚ) : ℚ :=
  match a with
  | none => b
  | some x => if x = 0 then b else x

/-- JavaScript `Math.round`: round half toward positive infinity. -/
def jsRound (q : ℚ) : ℚ := ((⌊q + 1/2⌋ : ℤ) : ℚ)

/-- Multi-timeframe indicator snapshot, from `types/index.ts`
(`TechnicalIndicators`). -/
structure TechnicalIndicators where
  ema20 : ℚ
  ema30 : ℚ
  ema60 : ℚ
  adx15m : ℚ
  adx1h : ℚ
  adx4h : ℚ
  rsi : ℚ
  atr : ℚ
deriving DecidableEq, Repr

/-- An open position, from `types/index.ts` (`Position`), restricted to the
fields the verified operations read or write. -/
structure Position where
  symbol : String
  direction : Direction
  entryPrice : ℚ
  quantity : ℚ
  leverage : ℚ
  stopLoss : ℚ
  takeProfit1 : ℚ
  takeProfit2 : ℚ
  openTime : ℕ
  orderId : String
  stopLossOrderId : Option String
  lastStopLossUpdate : Option ℕ
deriving DecidableEq, Repr

/-- Circuit-breaker record, from `types/index.ts` (`CircuitBreaker`).
The human-readable `reason` string is kept abstract as a tag. -/
structure CircuitBreaker where
  isTriggered : Bool
  dailyLoss : ℚ
  consecutiveLosses : ℕ
  timestamp : ℕ
deriving DecidableEq, Repr

/-- Persisted runtime state, from `types/index.ts` (`BotState`), restricted
to the fields the verified operations read or write. -/
structure BotState where
  status : PositionStatus
  currentPosition : Option Position
  circuitBreaker : CircuitBreaker
  todayTrades : ℕ
  dailyPnL : ℚ
  lastResetDate : String
  isRunning : Bool
  allowNewTrades : Bool
  lastTradeTime : ℕ
  totalTrades : ℕ
  totalPnL : ℚ
  winRate : ℚ
deriving DecidableEq, Repr

/-- One appended trade-history row, from `types/index.ts` (`TradeHistory`). -/
structure TradeHistory where
  id : String
  symbol : String
  direction : Direction
  entryPrice : ℚ
  exitPrice : ℚ
  quantity : ℚ
  leverage : ℚ
  pnl : ℚ
  pnlPercentage : ℚ
  openTime : ℕ
  closeTime : ℕ
  reason : String
deriving DecidableEq, Repr

/-- `riskConfig.circuitBreaker` from `types/index.ts`. -/
structure CircuitBreakerConfig where
  dailyLossThreshold : ℚ
  consecutiveLossesThreshold : ℕ
deriving DecidableEq, Repr

/-- `riskConfig.takeProfit.rsiExtreme` from `types/index.ts`. -/
structure RsiExtreme where
  long : ℚ
  short : ℚ
deriving DecidableEq, Repr

/-- `riskConfig.takeProfit` from `types/index.ts` (the `...RiskRewardRatio`
fields of the source are shortened to `...RiskReward`). -/
structure TakeProfitConfig where
  tp1RiskReward : ℚ
  tp2RiskReward : ℚ
  rsiExtreme : RsiExtreme
  adxDecreaseThreshold : ℚ
deriving DecidableEq, Repr

/-- `riskConfig` from `types/index.ts`, restricted to the used fields. -/
structure RiskConfig where
  circuitBreaker : CircuitBreakerConfig
  takeProfit : TakeProfitConfig
  dailyTradeLimit : ℕ
deriving DecidableEq, Repr

/-- Dynamic-leverage configuration from `utils/dynamic-leverage.ts`
(the simplified `DynamicLeverageConfig`). -/
structure DynamicLeverageConfig where
  enabled : Bool
  minLeverage : ℚ
  maxLeverage : ℚ
  baseLeverage : ℚ
  multiplierLOW : ℚ
  multiplierMEDIUM : ℚ
  multiplierHIGH : ℚ
deriving DecidableEq, Repr

/-- `config.riskLevelMultipliers[riskLevel]` lookup. -/
def DynamicLeverageConfig.multiplierFor (c : DynamicLeverageConfig) :
    RiskLevel → ℚ
  | RiskLevel.LOW => c.multiplierLOW
  | RiskLevel.MEDIUM => c.multiplierMEDIUM
  | RiskLevel.HIGH => c.multiplierHIGH

/-- Trailing-stop configuration from `types/index.ts`
(`TrailingStopConfig`); `activationRat` embeds the source field
`activationRatio`. -/
structure TrailingStopConfig where
  enabled : Bool
  activationRat : ℚ
  trailingDistance : ℚ
  updateIntervalSeconds : ℕ
deriving DecidableEq, Repr

/-- `indicatorsConfig.adxTrend` from `types/index.ts`. -/
structure AdxTrendConfig where
  adx1hThreshold : ℚ
  adx4hThreshold : ℚ
deriving DecidableEq, Repr

/-- Bot configuration from `types/index.ts` (`BotConfig`), restricted to
the fields the verified operations read. -/
structure BotConfig where
  leverage : ℚ
  maxRiskPercentage : ℚ
  stopLossATRMultiplier : ℚ
  maxStopLossPercentage : ℚ
  positionTimeoutHours : ℚ
  tradeCooldownInterval : ℚ
  riskConfig : RiskConfig
  dynamicLeverageConfig : DynamicLeverageConfig
  trailingStopConfig : TrailingStopConfig
  adxTrend : AdxTrendConfig
deriving DecidableEq, Repr

/-- Relevant slice of `getDefaultConfig()` in `utils/storage.ts`. -/
def getDefaultConfig : BotConfig where
  leverage := 10
  maxRiskPercentage := 20
  stopLossATRMultiplier := 3/2
  maxStopLossPercentage := 2
  positionTimeoutHours := 4
  tradeCooldownInterval := 600
  riskConfig :=
    { circuitBreaker := { dailyLossThreshold := 2, consecutiveLossesThreshold := 3 }
      takeProfit :=
        { tp1RiskReward := 2
          tp2RiskReward := 3
          rsiExtreme := { long := 70, short := 30 }
          adxDecreaseThreshold := 5 }
      dailyTradeLimit := 3 }
  dynamicLeverageConfig :=
    { enabled := true
      minLeverage := 2
      maxLeverage := 20
      baseLeverage := 6
      multiplierLOW := 3/2
      multiplierMEDIUM := 1
      multiplierHIGH := 1/2 }
  trailingStopConfig :=
    { enabled := true
      activationRat := 1/2
      trailingDistance := 3/2
      updateIntervalSeconds := 60 }
  adxTrend := { adx1hThreshold := 25, adx4hThreshold := 28 }

/-!
Embeddings of the pure functions in `utils/risk.ts`.
-/

/-- Result record of `checkTP1Condition` / `checkTP2Condition`
(`utils/risk.ts`), keeping the numeric payload and dropping log strings. -/
structure TPCheck where
  triggered : Bool
  risk : ℚ
  profit : ℚ
deriving DecidableEq, Repr

/-- `checkTP1Condition` from `utils/risk.ts` (lines 83-121): the trigger
compares profit against the raw risk `|entryPrice - stopLoss|`. -/
def checkTP1Condition (currentPrice : ℚ) (position : Position) : TPCheck :=
  let risk := |position.entryPrice - position.stopLoss|
  let profit :=
    if position.direction = Direction.LONG then currentPrice - position.entryPrice
    else position.entryPrice - currentPrice
  { triggered := decide (profit ≥ risk), risk := risk, profit := profit }

/-- `checkTP2Condition` from `utils/risk.ts` (lines 126-205). -/
def checkTP2Condition (currentPrice : ℚ) (position : Position) (rsi : ℚ)
    (adx15m : ℚ) (previousADX15m : ℚ) (riskConfig : RiskConfig) : TPCheck :=
  let risk := |position.entryPrice - position.stopLoss|
  let profit :=
    if position.direction = Direction.LONG then currentPrice - position.entryPrice
    else position.entryPrice - currentPrice
  let adxChange := previousADX15m - adx15m
  let riskRewardTriggered := decide (profit ≥ risk * riskConfig.takeProfit.tp2RiskReward)
  let rsiTriggered :=
    (decide (position.direction = Direction.LONG) &&
      decide (rsi ≥ riskConfig.takeProfit.rsiExtreme.long)) ||
    (decide (position.direction = Direction.SHORT) &&
      decide (rsi ≤ riskConfig.takeProfit.rsiExtreme.short))
  let adxTriggered := decide (adxChange ≥ riskConfig.takeProfit.adxDecreaseThreshold)
  { triggered := riskRewardTriggered || rsiTriggered || adxTriggered
    risk := risk, profit := profit }

/-- `calculatePnL` from `utils/risk.ts` (lines 210-226). -/
def calculatePnL (currentPrice : ℚ) (position : Position) : ℚ × ℚ :=
  let pnl :=
    if position.direction = Direction.LONG then
      (currentPrice - position.entryPrice) * position.quantity
    else
      (position.entryPrice - currentPrice) * position.quantity
  let pnlPercentage := pnl / (position.entryPrice * position.quantity) * 100 * position.leverage
  (pnl, pnlPercentage)

/-- `isPositionTimeout` from `utils/risk.ts` (lines 70-78); `now` replaces
`Date.now()`. -/
def isPositionTimeout (position : Position) (timeoutHours : ℚ)
    (adxDecreasing : Bool) (now : ℕ) : Bool :=
  let holdingTime := ((now : ℚ) - (position.openTime : ℚ)) / (1000 * 60 * 60)
  decide (holdingTime ≥ timeoutHours) && adxDecreasing

/-- `checkCircuitBreaker` from `utils/risk.ts` (lines 7-44); `now` replaces
`Date.now()`. -/
def checkCircuitBreaker (dailyPnL : ℚ) (consecutiveLosses : ℕ)
    (accountBalance : ℚ) (riskConfig : RiskConfig) (now : ℕ) : CircuitBreaker :=
  let dailyLossPercent := |dailyPnL| / accountBalance * 100
  if dailyPnL < 0 ∧ dailyLossPercent ≥ riskConfig.circuitBreaker.dailyLossThreshold then
    { isTriggered := true, dailyLoss := dailyLossPercent
      consecutiveLosses := consecutiveLosses, timestamp := now }
  else if consecutiveLosses ≥ riskConfig.circuitBreaker.consecutiveLossesThreshold then
    { isTriggered := true, dailyLoss := dailyLossPercent
      consecutiveLosses := consecutiveLosses, timestamp := now }
  else
    { isTriggered := false, dailyLoss := dailyLossPercent
      consecutiveLosses := consecutiveLosses, timestamp := now }

/-- `checkDailyTradeLimit` from `utils/risk.ts` (lines 298-303). -/
def checkDailyTradeLimit (todayTrades : ℕ) (riskConfig : RiskConfig) : Bool :=
  decide (todayTrades < riskConfig.dailyTradeLimit)

/-!
Embeddings of the pure functions in `utils/indicators.ts` (the current
revision, whose `checkADXTrend` takes the config and returns a result
record).
-/

/-- Result record of `checkADXTrend`, keeping the boolean payload. -/
structure ADXCheck where
  passed : Bool
  pass1h : Bool
  pass4h : Bool
deriving DecidableEq, Repr

/-- `checkADXTrend` from `utils/indicators.ts`: thresholds come from
`config?.indicatorsConfig?.adxTrend?...` with JavaScript `|| 25` / `|| 28`
fallbacks, and the gate is the OR of the 1h and 4h tests. -/
def checkADXTrend (indicators : TechnicalIndicators) (config : Option BotConfig) :
    ADXCheck :=
  let adx1hThreshold := jsNumOr (config.map fun c => c.adxTrend.adx1hThreshold) 25
  let adx4hThreshold := jsNumOr (config.map fun c => c.adxTrend.adx4hThreshold) 28
  let pass1h := decide (indicators.adx1h ≥ adx1hThreshold)
  let pass4h := decide (indicators.adx4h ≥ adx4hThreshold)
  { passed := pass1h || pass4h, pass1h := pass1h, pass4h := pass4h }

/-- `calculateStopLoss` from `utils/indicators.ts`. -/
def calculateStopLoss (entryPrice : ℚ) (direction : Direction) (atr : ℚ)
    (atrMultiplier : ℚ) (maxStopLossPercent : ℚ) : ℚ :=
  let stopLossDistance := atr * atrMultiplier
  let maxStopLossDistance := entryPrice * (maxStopLossPercent / 100)
  let finalDistance := min stopLossDistance maxStopLossDistance
  if direction = Direction.LONG then entryPrice - finalDistance
  else entryPrice + finalDistance

/-- `calculateTakeProfit` from `utils/indicators.ts` (the `ratio` argument
of the source is named `rr` here). -/
def calculateTakeProfit (entryPrice : ℚ) (stopLoss : ℚ) (direction : Direction)
    (rr : ℚ) : ℚ :=
  let risk := |entryPrice - stopLoss|
  let reward := risk * rr
  if direction = Direction.LONG then entryPrice + reward
  else entryPrice - reward

/-- `calculatePositionSize` from `utils/indicators.ts` (current revision,
returning a USDT amount based on the stop-loss distance fraction). -/
def calculatePositionSize (accountBalance : ℚ) (entryPrice : ℚ) (stopLoss : ℚ)
    (maxRiskPercent : ℚ) : ℚ :=
  let riskAmount := accountBalance * (maxRiskPercent / 100)
  let priceRisk := |entryPrice - stopLoss|
  if priceRisk = 0 then 0
  else
    let stopLossDistance := priceRisk / entryPrice
    if stopLossDistance = 0 then 0
    else riskAmount / stopLossDistance

/-- `calculateMaxUsdtAmount` from `utils/indicators.ts`. -/
def calculateMaxUsdtAmount (accountBalance : ℚ) (leverage : ℚ)
    (maxRiskPercent : ℚ) : ℚ :=
  let maxAmount := accountBalance * leverage
  let safeAmount := accountBalance * leverage * (maxRiskPercent / 100)
  min maxAmount safeAmount

/-!
Embeddings of `utils/dynamic-leverage.ts` (the simplified revision used by
the position opener: `calculateQuickLeverage`, `calculateSafeLeverage`,
`calculateFinalLeverage`).
-/

/-- Advisory result, from `types/index.ts` (`AIAnalysis`), restricted to
the fields the leverage path reads. -/
structure AIAnalysis where
  direction : Direction
  confidence : ℚ
  score : ℚ
  riskLevel : RiskLevel
deriving DecidableEq, Repr

/-- `calculateQuickLeverage` from `utils/dynamic-leverage.ts`: base
leverage scaled by `0.5 + confidence/100` and the risk-level multiplier
(with JavaScript `|| 1.0` fallback), clamped to `[min, max]` and then
rounded. -/
def calculateQuickLeverage (aiAnalysis : AIAnalysis)
    (config : DynamicLeverageConfig) : ℚ :=
  let leverage := config.baseLeverage
  let confidenceFactor := 1/2 + aiAnalysis.confidence / 100 * 1
  let leverage := leverage * confidenceFactor
  let riskFactor := jsNumOr (some (config.multiplierFor aiAnalysis.riskLevel)) 1
  let leverage := leverage * riskFactor
  let leverage := max config.minLeverage (min config.maxLeverage leverage)
  jsRound leverage

/-- `calculateSafeLeverage` from `utils/dynamic-leverage.ts`. -/
def calculateSafeLeverage (accountBalance : ℚ) (maxRiskPercentage : ℚ)
    (stopLossPrice : ℚ) (entryPrice : ℚ) : ℚ :=
  if accountBalance ≤ 0 then 1
  else
    let stopLossDistance := |entryPrice - stopLossPrice| / entryPrice
    if stopLossDistance = 0 then 1
    else
      let safeLeverage := (maxRiskPercentage / 100) / stopLossDistance
      max 1 (min 20 (jsRound safeLeverage))

/-- `calculateFinalLeverage` from `utils/dynamic-leverage.ts`. -/
def calculateFinalLeverage (dynamicLeverage : ℚ) (safeLeverage : ℚ)
    (config : DynamicLeverageConfig) : ℚ :=
  let finalLeverage := min dynamicLeverage safeLeverage
  max config.minLeverage (min config.maxLeverage finalLeverage)

/-!
Embedding of the trailing-stop helper
(`modules/futures-bot/helpers/trailing-stop.ts`) and of its application in
`PositionMonitor.checkAndUpdateTrailingStop` / `updateStopLoss`.
-/

/-- JavaScript `a || b` on an optional natural (millisecond timestamp):
`undefined` and `0` fall through to the default. -/
def jsNatOr (a : Option ℕ) (b : ℕ) : ℕ :=
  match a with
  | none => b
  | some x => if x = 0 then b else x

/-- Result record of `calculateTrailingStopLoss`, keeping `newStopLoss` and
`shouldUpdate` and dropping the log strings. -/
structure TrailingStopResult where
  newStopLoss : Option ℚ
  shouldUpdate : Bool
deriving DecidableEq, Repr

/-- `calculateTrailingStopLoss` from `helpers/trailing-stop.ts`: candidate
stop at `price ∓ atr · trailingDistance`, applied only when the
profit-to-initial-risk quotient reached the activation level and the
candidate strictly improves the current stop. -/
def calculateTrailingStopLoss (currentPrice : ℚ) (position : Position)
    (atr : ℚ) (config : TrailingStopConfig) : TrailingStopResult :=
  let initialRisk := |position.entryPrice - position.stopLoss|
  match position.direction with
  | Direction.IDLE => { newStopLoss := none, shouldUpdate := false }
  | dir =>
    let currentProfit :=
      if dir = Direction.LONG then currentPrice - position.entryPrice
      else position.entryPrice - currentPrice
    let profitRiskRat := if initialRisk > 0 then currentProfit / initialRisk else 0
    if profitRiskRat < config.activationRat then
      { newStopLoss := none, shouldUpdate := false }
    else
      let trailingDist := atr * config.trailingDistance
      let candidate :=
        if dir = Direction.LONG then currentPrice - trailingDist
        else currentPrice + trailingDist
      if dir = Direction.LONG then
        if candidate > position.stopLoss then
          { newStopLoss := some candidate, shouldUpdate := true }
        else
          { newStopLoss := some position.stopLoss, shouldUpdate := false }
      else
        if candidate < position.stopLoss then
          { newStopLoss := some candidate, shouldUpdate := true }
        else
          { newStopLoss := some position.stopLoss, shouldUpdate := false }

/-- `shouldUpdateTrailingStop` from `helpers/trailing-stop.ts`; `now`
replaces `Date.now()`. -/
def shouldUpdateTrailingStop (lastUpdateTime : ℕ) (updateIntervalSeconds : ℕ)
    (now : ℕ) : Bool :=
  decide (((now : ℚ) - (lastUpdateTime : ℚ)) / 1000 ≥ (updateIntervalSeconds : ℚ))

/-- Exchange responses consumed by one trailing-stop monitor step. -/
structure TrailStepEnv where
  price : ℚ
  atr : ℚ
  now : ℕ
  stopOrderOk : Bool
  newStopOrderId : String
deriving DecidableEq, Repr

/-- One trailing-stop step of `PositionMonitor.checkAndUpdateTrailingStop`
plus `updateStopLoss` (`trading/position-monitor.ts`): the position is
mutated only when the config enables trailing, the update interval elapsed
(`position.lastStopLossUpdate || position.openTime`), the calculator asks
for an update with a truthy new stop, and the replacement stop order was
accepted by the exchange. -/
def applyTrailingStep (config : BotConfig) (env : TrailStepEnv)
    (position : Position) : Position :=
  if ¬config.trailingStopConfig.enabled then position
  else
    let lastUpdate := jsNatOr position.lastStopLossUpdate position.openTime
    if ¬shouldUpdateTrailingStop lastUpdate
        config.trailingStopConfig.updateIntervalSeconds env.now then position
    else
      let result := calculateTrailingStopLoss env.price position env.atr
        config.trailingStopConfig
      match result.newStopLoss with
      | none => position
      | some ns =>
        if result.shouldUpdate && decide (ns ≠ 0) && env.stopOrderOk then
          { position with
            stopLoss := ns
            stopLossOrderId := some env.newStopOrderId
            lastStopLossUpdate := some env.now }
        else position

/-!
Embedding of `StateManager.resetDailyState`
(`modules/futures-bot/core/state-manager.ts`, lines 111-142) and of the
entry gate of `MarketScanner.scanForOpportunities`
(`modules/futures-bot/core/scanner.ts`, lines 141-163).
-/

/-- `StateManager.resetDailyState`: zeroes the daily counters, clears the
circuit breaker, stamps `lastResetDate`, re-allows trades, and restores
`isRunning`/`status` whenever the bot was stopped, whatever the cause. -/
def resetDailyState (today : String) (now : ℕ) (state : BotState) : BotState :=
  let wasRunning := state.isRunning
  let st :=
    { state with
      todayTrades := 0
      dailyPnL := 0
      lastResetDate := today
      allowNewTrades := true
      circuitBreaker :=
        { isTriggered := false, dailyLoss := 0, consecutiveLosses := 0
          timestamp := now } }
  if ¬wasRunning then
    { st with isRunning := true, status := PositionStatus.MONITORING }
  else st

/-- Entry gate of `MarketScanner.scanForOpportunities`: symbols are
analyzed (and an entry can be attempted) only when `allowNewTrades` holds
and the daily trade limit is not reached.  No other state field is
consulted. -/
def scannerAttemptsEntry (state : BotState) (config : BotConfig) : Bool :=
  state.allowNewTrades && checkDailyTradeLimit state.todayTrades config.riskConfig

/-!
Embedding of `PositionValidator` (`trading/position-validator.ts`):
consistency check against the exchange and the compensated-close routine.
-/

/-- One exchange-reported position (`fetchPositions` row), restricted to
the fields the engine reads. -/
structure ExchPos where
  symbol : String
  quantity : ℚ
deriving DecidableEq, Repr

/-- `fetchOrder` result (`binance.fetchOrder(..., trigger)`), restricted to
the fields the compensated close reads.  `actualPrice` models
`Number(stopOrder.info?.actualPrice)`. -/
structure FetchedOrder where
  status : String
  actualPrice : Option ℚ
  average : Option ℚ
  price : Option ℚ
deriving DecidableEq, Repr

/-- Exchange responses consumed by one compensated close. -/
structure CompensatedEnv where
  fetchedOrder : Option FetchedOrder
  cancelOk : Bool
  marketPrice : ℚ
  balance : ℚ
  now : ℕ
deriving DecidableEq, Repr

/-- Exit-price selection of `PositionValidator.handleCompensatedClose`
(lines 91-134): when a stop-order id is recorded and the order query
succeeds, a closed/filled order yields
`Number(info?.actualPrice) || average || price || stopLoss`; an unfilled
order that cancels cleanly yields `average || price || stopLoss`, and a
failed cancel or failed query falls back to the current market price; a
zero result is replaced by a re-fetched market price. -/
def compensatedExitPrice (env : CompensatedEnv) (position : Position) : ℚ :=
  let base :=
    match position.stopLossOrderId with
    | none => env.marketPrice
    | some _ =>
      match env.fetchedOrder with
      | none => env.marketPrice
      | some o =>
        if o.status = "closed" ∨ o.status = "filled" then
          jsNumOr o.actualPrice (jsNumOr o.average (jsNumOr o.price position.stopLoss))
        else if env.cancelOk then
          jsNumOr o.average (jsNumOr o.price position.stopLoss)
        else env.marketPrice
  if base = 0 then env.marketPrice else base

/-- `recordTrade` from `helpers/trade-recorder.ts`: the appended
trade-history row. -/
def recordTrade (position : Position) (exitPrice : ℚ) (reason : String)
    (now : ℕ) : TradeHistory :=
  let pp := calculatePnL exitPrice position
  { id := toString now ++ "-" ++ position.symbol
    symbol := position.symbol
    direction := position.direction
    entryPrice := position.entryPrice
    exitPrice := exitPrice
    quantity := position.quantity
    leverage := position.leverage
    pnl := pp.1
    pnlPercentage := pp.2
    openTime := position.openTime
    closeTime := now
    reason := reason }

/-- `PositionValidator.handleCompensatedClose` (lines 87-178): select the
exit price, append the history row, and apply the same daily-PnL,
consecutive-loss and circuit-breaker bookkeeping as an explicit close;
`lastTradeTime` is stamped with the close time.  Persistence and the
balance fetch are assumed to succeed. -/
def handleCompensatedClose (env : CompensatedEnv) (config : BotConfig)
    (position : Position) (reason : String) (state : BotState) :
    BotState × List TradeHistory :=
  let exitPrice := compensatedExitPrice env position
  let pnl := (calculatePnL exitPrice position).1
  let row := recordTrade position exitPrice reason env.now
  let newDailyPnL := state.dailyPnL + pnl
  let consecutiveLosses :=
    if pnl < 0 then state.circuitBreaker.consecutiveLosses + 1 else 0
  let breaker := checkCircuitBreaker newDailyPnL consecutiveLosses env.balance
    config.riskConfig env.now
  ({ state with
      dailyPnL := newDailyPnL
      circuitBreaker := breaker
      currentPosition := none
      status := if breaker.isTriggered then PositionStatus.HALTED
                else PositionStatus.MONITORING
      lastTradeTime := env.now
      isRunning := if breaker.isTriggered then false else state.isRunning },
   [row])

/-- Symbol comparison of `checkPositionConsistency`: strip the `:USDT`
suffix on both sides. -/
def stripUSDT (s : String) : String := s.replace ":USDT" ""

/-- `hasPositionOnExchange` test inside
`PositionValidator.checkPositionConsistency` (lines 44-53). -/
def hasPositionOnExchange (positions : List ExchPos) (position : Position) : Bool :=
  positions.any fun p =>
    decide (stripUSDT p.symbol = stripUSDT position.symbol) && decide (|p.quantity| > 0)

/-- `PositionValidator.checkPositionConsistency` (lines 41-82): when the
exchange reports no matching position with non-zero size, run the
compensated close (reason depending on whether a stop-order id is
recorded) and report inconsistency. -/
def checkPositionConsistency (env : CompensatedEnv) (config : BotConfig)
    (positions : List ExchPos) (position : Position) (state : BotState) :
    Bool × BotState × List TradeHistory :=
  if hasPositionOnExchange positions position then (true, state, [])
  else
    let reason :=
      match position.stopLossOrderId with
      | some _ => "止损触发"
      | none => "未知原因平仓"
    let res := handleCompensatedClose env config position reason state
    (false, res.1, res.2)

/-!
Embedding of `PositionOpener.openPosition`
(`trading/position-opener.ts`, lines 589-826 of the module bundle).
The exchange responses for the single run are collected in `OpenEnv`;
every awaited call that the source lets throw is modelled as a fallible
step, and the surrounding `try`/`catch` (which reverts `status` to
`MONITORING`) is the `Option` wrapper of `openPositionAfterOpening`.
Persistence (`saveBotState`) is assumed to succeed.
-/

/-- A trade signal, from `types/index.ts` (`TradeSignal`), restricted to
the fields the opener reads. -/
structure TradeSignal where
  symbol : String
  direction : Direction
  price : ℚ
  confidence : ℚ
  indicators : TechnicalIndicators
  aiAnalysis : Option AIAnalysis
  timestamp : ℕ

/-- Exchange responses consumed by one `openPosition` run.  `orderQty` is
the lot-rounded quantity `binance.calculateOrderAmount` answers for the
requested USDT amount; `confirmResult` is the outcome of
`waitAndConfirmPosition` (`none` models the query throwing on the last
retry); `finalPositions` is the `fetchPositions` answer used to read the
exchange-reported filled quantity. -/
structure OpenEnv where
  availableBalance : ℚ
  setLeverageOk : Bool
  setMarginOk : Bool
  orderQty : ℚ → ℚ
  marketOrderOk : Bool
  marketOrderId : String
  confirmResult : Option Bool
  finalPositions : List ExchPos
  stopOrderOk : Bool
  stopOrderId : String
  now : ℕ

/-- The exchange position the opener reads its filled quantity from:
`positions.find(p => Math.abs(Number(p.quantity || 0)) > 0)`. -/
def realPositionOf (env : OpenEnv) : Option ExchPos :=
  env.finalPositions.find? fun p => decide (|p.quantity| > 0)

/-- Body of `PositionOpener.openPosition` after `status = OPENING` was
persisted; `none` models a thrown error (handled by the caller's catch). -/
def openPositionAfterOpening (env : OpenEnv) (config : BotConfig)
    (signal : TradeSignal) (state : BotState) : Option BotState :=
  let stopLoss := calculateStopLoss signal.price signal.direction
    signal.indicators.atr config.stopLossATRMultiplier config.maxStopLossPercentage
  let finalLeverage :=
    match signal.aiAnalysis with
    | some ai =>
      if config.dynamicLeverageConfig.enabled then
        calculateFinalLeverage
          (calculateQuickLeverage ai config.dynamicLeverageConfig)
          (calculateSafeLeverage env.availableBalance config.maxRiskPercentage
            stopLoss signal.price)
          config.dynamicLeverageConfig
      else config.leverage
    | none => config.leverage
  if ¬env.setLeverageOk then none
  else if ¬env.setMarginOk then none
  else
    let riskAmount := calculatePositionSize env.availableBalance signal.price
      stopLoss config.maxRiskPercentage
    let maxUsdtAmount := calculateMaxUsdtAmount env.availableBalance
      finalLeverage config.maxRiskPercentage
    let usdtAmount := min riskAmount maxUsdtAmount
    let minQuantity := 20 / signal.price
    let estimatedQuantity := usdtAmount / signal.price
    let finalUsdtAmount :=
      if estimatedQuantity < minQuantity then
        min (minQuantity * signal.price) maxUsdtAmount
      else usdtAmount
    let quantity := env.orderQty finalUsdtAmount
    let notional := quantity * signal.price
    if notional < 20 then none
    else if ¬env.marketOrderOk then none
    else
      match env.confirmResult with
      | none => none
      | some false => none
      | some true =>
        match realPositionOf env with
        | none => none
        | some realPosition =>
          if ¬env.stopOrderOk then none
          else
            let takeProfit1 := calculateTakeProfit signal.price stopLoss
              signal.direction 1
            let takeProfit2 := calculateTakeProfit signal.price stopLoss
              signal.direction 2
            some
              { state with
                currentPosition := some
                  { symbol := signal.symbol
                    direction := signal.direction
                    entryPrice := signal.price
                    quantity := realPosition.quantity
                    leverage := finalLeverage
                    stopLoss := stopLoss
                    takeProfit1 := takeProfit1
                    takeProfit2 := takeProfit2
                    openTime := env.now
                    orderId := env.marketOrderId
                    stopLossOrderId := some env.stopOrderId
                    lastStopLossUpdate := none }
                status := PositionStatus.POSITION
                todayTrades := state.todayTrades + 1 }

/-- `PositionOpener.openPosition`: the IDLE-direction and low-balance
guards return before `status = OPENING` is set; afterwards every failure
is caught and reverts `status` to `MONITORING`.  The second component is
the list of trade-history rows appended during the run — the opener never
records a trade. -/
def openPosition (env : OpenEnv) (config : BotConfig) (signal : TradeSignal)
    (state : BotState) : BotState × List TradeHistory :=
  if signal.direction = Direction.IDLE then (state, [])
  else if env.availableBalance < 120 then (state, [])
  else
    let opening := { state with status := PositionStatus.OPENING }
    match openPositionAfterOpening env config signal opening with
    | some st => (st, [])
    | none => ({ opening with status := PositionStatus.MONITORING }, [])

/-!
Embedding of the per-tick decision chain of `PositionMonitor.monitorPosition`
(`trading/position-monitor.ts`, lines 248-322): timeout, then TP2, then
TP1; the returned reason string is the close reason handed to the closer
(which fully closes `position.quantity`).
-/

/-- Ambient data of one monitor tick: current price, the (possibly
skipped) fresh indicator snapshot, the analyzer's remembered ADX15m, and
the clock. -/
structure MonitorEnv where
  price : ℚ
  indicators : Option TechnicalIndicators
  prevADX : Option ℚ
  now : ℕ
deriving DecidableEq, Repr

/-- Close decision of `PositionMonitor.monitorPosition`: `some reason`
when the tick requests a (full) close.  `prevADX` resolves as
`getPreviousADX(symbol) ?? (indicators?.adx15m || 0)`. -/
def monitorDecision (env : MonitorEnv) (config : BotConfig)
    (position : Position) : Option String :=
  let prevADX := env.prevADX.getD
    (match env.indicators with
     | some ind => ind.adx15m
     | none => 0)
  match env.indicators with
  | some ind =>
    if isPositionTimeout position config.positionTimeoutHours
        (decide (prevADX > ind.adx15m)) env.now then some "持仓超时"
    else if (checkTP2Condition env.price position ind.rsi ind.adx15m prevADX
        config.riskConfig).triggered then some "TP2止盈"
    else if (checkTP1Condition env.price position).triggered then some "TP1止盈"
    else none
  | none =>
    if (checkTP1Condition env.price position).triggered then some "TP1止盈"
    else none

/-!
Embedding of the persistence layer (`utils/storage.ts`).  Each save
routine is modelled by the exact sequence of file-system operations it
issues (`ensureDataDir` + `writeFile`); there is no temporary file and no
rename anywhere in the source.  `addTradeHistory` is additionally modelled
as a function of the pre-existing history file and a write-success flag.
-/

/-- One file-system operation issued by the storage layer (content type
`α` is the serialized payload). -/
inductive FsOp (α : Type) where
  | write (path : String) (content : α)
  | rename (src : String) (dst : String)
  | mkdir (path : String)
deriving DecidableEq, Repr

/-- `STATE_FILE` of `utils/storage.ts` (relative to the working dir). -/
def STATE_FILE : String := "data/bot-state.json"

/-- `CONFIG_FILE` of `utils/storage.ts`. -/
def CONFIG_FILE : String := "data/bot-config.json"

/-- `HISTORY_FILE` of `utils/storage.ts`. -/
def HISTORY_FILE : String := "data/trade-history.json"

/-- `ensureDataDir`: a `mkdir` only when the directory is missing. -/
def ensureDataDirOps (α : Type) (dirExists : Bool) : List (FsOp α) :=
  if dirExists then [] else [FsOp.mkdir "data"]

/-- File-system trace of `saveBotState` (lines 24-32): `ensureDataDir`
followed by one direct whole-file `writeFile` of the target. -/
def saveBotStateOps (dirExists : Bool) (state : BotState) : List (FsOp BotState) :=
  ensureDataDirOps BotState dirExists ++ [FsOp.write STATE_FILE state]

/-- File-system trace of `saveBotConfig` (lines 53-61). -/
def saveBotConfigOps (dirExists : Bool) (config : BotConfig) : List (FsOp BotConfig) :=
  ensureDataDirOps BotConfig dirExists ++ [FsOp.write CONFIG_FILE config]

/-- File-system trace of the history write inside `addTradeHistory`
(line 151): one direct whole-file `writeFile` of the target. -/
def addTradeHistoryWriteOps (dirExists : Bool) (rows : List TradeHistory) :
    List (FsOp (List TradeHistory)) :=
  ensureDataDirOps (List TradeHistory) dirExists ++ [FsOp.write HISTORY_FILE rows]

/-- Whether a trace ever renames some file onto `target` — the minimal
footprint of a write-to-temp-then-rename protocol. -/
def renamesOnto {α : Type} (ops : List (FsOp α)) (target : String) : Bool :=
  ops.any fun op =>
    match op with
    | FsOp.rename _ dst => decide (dst = target)
    | _ => false

/-- Whether a trace writes the target path directly. -/
def writesDirectly {α : Type} (ops : List (FsOp α)) (target : String) : Bool :=
  ops.any fun op =>
    match op with
    | FsOp.write p _ => decide (p = target)
    | _ => false

/-- `getDefaultState()` of `utils/storage.ts` (lines 295-318); `today` and
`now` replace `dayjs()` and `Date.now()`. -/
def getDefaultState (today : String) (now : ℕ) : BotState where
  status := PositionStatus.IDLE
  currentPosition := none
  circuitBreaker :=
    { isTriggered := false, dailyLoss := 0, consecutiveLosses := 0, timestamp := now }
  todayTrades := 0
  dailyPnL := 0
  lastResetDate := today
  isRunning := false
  allowNewTrades := true
  lastTradeTime := 0
  totalTrades := 0
  totalPnL := 0
  winRate := 0

/-- On-disk condition of the history file before an `addTradeHistory`
call: absent, present but blank, present with unparsable JSON, or parsed
rows. -/
inductive HistoryFile where
  | missing
  | blank
  | unparsable
  | parsed (rows : List TradeHistory)
deriving DecidableEq, Repr

/-- Stable insertion of a row into a list kept descending by `closeTime`,
modelling `history.sort((a, b) => b.closeTime - a.closeTime)`. -/
def insertByCloseTimeDesc (t : TradeHistory) : List TradeHistory → List TradeHistory
  | [] => [t]
  | h :: rest =>
    if t.closeTime > h.closeTime then t :: h :: rest
    else h :: insertByCloseTimeDesc t rest

/-- Sort descending by `closeTime`. -/
def sortByCloseTimeDesc (l : List TradeHistory) : List TradeHistory :=
  l.foldr insertByCloseTimeDesc []

/-- `calculateTotalStats` of `utils/storage.ts` (lines 82-93);
`winRate.toFixed(2)` is `jsRound (x * 100) / 100` on the non-negative
win rate. -/
def calculateTotalStats (history : List TradeHistory) : ℕ × ℚ × ℚ :=
  let totalTrades := history.length
  let totalPnL := (history.map fun t => t.pnl).sum
  let winningTrades := (history.filter fun t => decide (t.pnl > 0)).length
  let winRate :=
    if totalTrades > 0 then ((winningTrades : ℚ) / (totalTrades : ℚ)) * 100 else 0
  (totalTrades, totalPnL, jsRound (winRate * 100) / 100)

/-- `updateTotalStatsInState` of `utils/storage.ts` (lines 98-116) over
the given parsed history and currently stored state (`none` when no state
file is present, in which case the function answers `null`). -/
def updateTotalStatsInState (storedState : Option BotState)
    (history : List TradeHistory) : Option BotState :=
  match storedState with
  | none => none
  | some st =>
    let stats := calculateTotalStats history
    some { st with totalTrades := stats.1, totalPnL := stats.2.1, winRate := stats.2.2 }

/-- Id synthesis inside `addTradeHistory`: a row with an empty id gets
`closeTime-symbol` (slashes replaced). -/
def ensureTradeId (trade : TradeHistory) : TradeHistory :=
  if trade.id = "" then
    { trade with id := toString trade.closeTime ++ "-" ++ trade.symbol.replace "/" "-" }
  else trade

/-- `addTradeHistory` of `utils/storage.ts` (lines 121-163) as a function
of the pre-existing history file, the write outcome and the stored state:
a missing, blank or unparsable file starts from the empty list; the row
gets a synthesized id when blank; the new list is written whole; a failed
write is caught and answered with `null`, leaving the file as it was.
The first component is the returned value, the second the resulting
history file. -/
def addTradeHistory (historyFile : HistoryFile) (writeOk : Bool)
    (storedState : Option BotState) (trade : TradeHistory) :
    Option BotState × HistoryFile :=
  let history :=
    match historyFile with
    | HistoryFile.parsed rows => rows
    | _ => []
  let newHistory := sortByCloseTimeDesc (history ++ [ensureTradeId trade])
  if ¬writeOk then (none, historyFile)
  else (updateTotalStatsInState storedState newHistory, HistoryFile.parsed newHistory)

/-!
Claim theorems.
-/

/-- C3: for every indicator snapshot, the evaluator's ADX gate passes if
and only if `ADX1h ≥ adx1hThreshold` or `ADX4h ≥ adx4hThreshold` (logical
OR of the two higher timeframes); no other timeframe's ADX value occurs in
the characterization, so none affects the gate.  The hypotheses exclude
the degenerate zero thresholds, which the JavaScript `||` fallback would
replace by the defaults 25 / 28. -/
theorem c3_adx_gate_or (indicators : TechnicalIndicators) (config : BotConfig)
    (h1 : config.adxTrend.adx1hThreshold ≠ 0)
    (h4 : config.adxTrend.adx4hThreshold ≠ 0) :
    (checkADXTrend indicators (some config)).passed = true ↔
      (indicators.adx1h ≥ config.adxTrend.adx1hThreshold ∨
       indicators.adx4h ≥ config.adxTrend.adx4hThreshold) := by
  simp [checkADXTrend, jsNumOr, h1, h4]

/-- Concrete instantiation of `c3_adx_gate_or` at the default
configuration and a snapshot whose 1h ADX alone clears its threshold. -/
theorem c3_adx_gate_or_witness :
    (checkADXTrend
        { ema20 := 0, ema30 := 0, ema60 := 0, adx15m := 1, adx1h := 26
          adx4h := 1, rsi := 50, atr := 1 }
        (some getDefaultConfig)).passed = true ↔
      ((26 : ℚ) ≥ getDefaultConfig.adxTrend.adx1hThreshold ∨
       (1 : ℚ) ≥ getDefaultConfig.adxTrend.adx4hThreshold) :=
  c3_adx_gate_or
    { ema20 := 0, ema30 := 0, ema60 := 0, adx15m := 1, adx1h := 26
      adx4h := 1, rsi := 50, atr := 1 }
    getDefaultConfig (by decide) (by decide)

/-- C8 counterexample: a state stopped by the operator — circuit breaker
untriggered, `todayTrades` far below the daily cap — is nevertheless
re-enabled by the daily reset, refuting that re-enabling happens only when
the stop was caused by the breaker or the trade cap. -/
theorem c8_counterexample :
    (getDefaultState "2026-10-11" 0).isRunning = false ∧
    (getDefaultState "2026-10-11" 0).circuitBreaker.isTriggered = false ∧
    checkDailyTradeLimit (getDefaultState "2026-10-11" 0).todayTrades
      getDefaultConfig.riskConfig = true ∧
    (resetDailyState "2026-10-12" 5 (getDefaultState "2026-10-11" 0)).isRunning = true ∧
    (resetDailyState "2026-10-12" 5 (getDefaultState "2026-10-11" 0)).status =
      PositionStatus.MONITORING := by
  refine ⟨rfl, rfl, by decide, rfl, rfl⟩

/-- C8 (amended): the daily reset zeroes `todayTrades` and `dailyPnL`,
clears the circuit breaker, sets `lastResetDate` to today and
`allowNewTrades` to true, and leaves the engine running: whenever
`isRunning` was false — for any reason, including an operator stop — it is
set back to true with `status = MONITORING`; a running engine keeps its
status. -/
theorem c8_daily_reset (today : String) (now : ℕ) (state : BotState) :
    (resetDailyState today now state).todayTrades = 0 ∧
    (resetDailyState today now state).dailyPnL = 0 ∧
    (resetDailyState today now state).circuitBreaker =
      { isTriggered := false, dailyLoss := 0, consecutiveLosses := 0
        timestamp := now } ∧
    (resetDailyState today now state).lastResetDate = today ∧
    (resetDailyState today now state).allowNewTrades = true ∧
    (resetDailyState today now state).isRunning = true ∧
    (resetDailyState today now state).status =
      (if state.isRunning then state.status else PositionStatus.MONITORING) ∧
    (resetDailyState today now state).currentPosition = state.currentPosition ∧
    (resetDailyState today now state).lastTradeTime = state.lastTradeTime := by
  unfold resetDailyState
  by_cases h : state.isRunning <;> simp [h]

/-- C9 counterexample: the persisted write of the state file issued by
`saveBotState` at the default state performs a direct whole-file write of
the target and never renames anything onto it, refuting that every
persisted write goes through a temporary file plus rename. -/
theorem c9_counterexample :
    renamesOnto (saveBotStateOps true (getDefaultState "2026-10-12" 0))
      STATE_FILE = false ∧
    writesDirectly (saveBotStateOps true (getDefaultState "2026-10-12" 0))
      STATE_FILE = true := by
  exact ⟨rfl, by decide⟩

/-- C9 (amended): every persisted write of the config, state and history
files is a single direct whole-file `writeFile` of the target path — no
temporary file and no rename are involved, so mid-write crash atomicity is
not provided by the storage layer. -/
theorem c9_direct_whole_file_writes (dirExists : Bool) (state : BotState)
    (config : BotConfig) (rows : List TradeHistory) :
    (renamesOnto (saveBotStateOps dirExists state) STATE_FILE = false ∧
     writesDirectly (saveBotStateOps dirExists state) STATE_FILE = true ∧
     (saveBotStateOps dirExists state).filter
       (fun op => match op with | FsOp.write _ _ => true | _ => false) =
       [FsOp.write STATE_FILE state]) ∧
    (renamesOnto (saveBotConfigOps dirExists config) CONFIG_FILE = false ∧
     writesDirectly (saveBotConfigOps dirExists config) CONFIG_FILE = true ∧
     (saveBotConfigOps dirExists config).filter
       (fun op => match op with | FsOp.write _ _ => true | _ => false) =
       [FsOp.write CONFIG_FILE config]) ∧
    (renamesOnto (addTradeHistoryWriteOps dirExists rows) HISTORY_FILE = false ∧
     writesDirectly (addTradeHistoryWriteOps dirExists rows) HISTORY_FILE = true ∧
     (addTradeHistoryWriteOps dirExists rows).filter
       (fun op => match op with | FsOp.write _ _ => true | _ => false) =
       [FsOp.write HISTORY_FILE rows]) := by
  cases dirExists <;>
    simp [saveBotStateOps, saveBotConfigOps, addTradeHistoryWriteOps,
      ensureDataDirOps, renamesOnto, writesDirectly, STATE_FILE, CONFIG_FILE,
      HISTORY_FILE]

/-- C10: an `addTradeHistory` call over an unparsable (or missing, or
blank) history file does not fail — it starts from the empty list and
rewrites the file to contain exactly the one new row, discarding every
previously stored row; and when the write fails the call answers `null`
instead of raising and the file keeps its previous condition. -/
theorem c10_add_trade_history (storedState : Option BotState)
    (trade : TradeHistory) :
    addTradeHistory HistoryFile.unparsable true storedState trade =
      (updateTotalStatsInState storedState [ensureTradeId trade],
       HistoryFile.parsed [ensureTradeId trade]) ∧
    addTradeHistory HistoryFile.missing true storedState trade =
      (updateTotalStatsInState storedState [ensureTradeId trade],
       HistoryFile.parsed [ensureTradeId trade]) ∧
    addTradeHistory HistoryFile.blank true storedState trade =
      (updateTotalStatsInState storedState [ensureTradeId trade],
       HistoryFile.parsed [ensureTradeId trade]) ∧
    (∀ historyFile, addTradeHistory historyFile false storedState trade =
      (none, historyFile)) := by
  refine ⟨?_, ?_, ?_, fun historyFile => ?_⟩ <;>
    simp [addTradeHistory, sortByCloseTimeDesc, insertByCloseTimeDesc]

/-- Concrete LONG position for the C6 statements: entry 100, stop 99,
so the initial risk is 1. -/
def c6Position : Position where
  symbol := "BTC/USDT"
  direction := Direction.LONG
  entryPrice := 100
  quantity := 1
  leverage := 10
  stopLoss := 99
  takeProfit1 := 101
  takeProfit2 := 102
  openTime := 0
  orderId := "o1"
  stopLossOrderId := some "s1"
  lastStopLossUpdate := none

/-- C6 counterexample: with the default configuration
(`tp1RiskRewardRatio = 2`) and a LONG position of risk 1, the TP1 check
fires at price 101 (profit 1) although profit has not reached
`risk · tp1RR = 2` — the trigger compares against the raw risk and never
consults the configured ratio. -/
theorem c6_counterexample :
    (checkTP1Condition 101 c6Position).triggered = true ∧
    ¬((101 : ℚ) - c6Position.entryPrice ≥
        |c6Position.entryPrice - c6Position.stopLoss| *
          getDefaultConfig.riskConfig.takeProfit.tp1RiskReward) := by
  constructor
  · simp [checkTP1Condition, c6Position]
    norm_num
  · simp [c6Position, getDefaultConfig]
    norm_num

/-- C6 (amended): during position monitoring, on a tick with a fresh
indicator snapshot where neither the timeout check nor the TP2 check
fires, the monitor requests a full close with reason `TP1止盈` exactly
when the current profit reaches the raw risk `|entryPrice - stopLoss|`
(a fixed 1:1 threshold; the configured `tp1RiskRewardRatio` is not
consulted). -/
theorem c6_tp1_full_close (env : MonitorEnv) (config : BotConfig)
    (position : Position) (ind : TechnicalIndicators)
    (hind : env.indicators = some ind)
    (hto : isPositionTimeout position config.positionTimeoutHours
      (decide (env.prevADX.getD ind.adx15m > ind.adx15m)) env.now = false)
    (htp2 : (checkTP2Condition env.price position ind.rsi ind.adx15m
      (env.prevADX.getD ind.adx15m) config.riskConfig).triggered = false) :
    monitorDecision env config position = some "TP1止盈" ↔
      (if position.direction = Direction.LONG then env.price - position.entryPrice
       else position.entryPrice - env.price) ≥
        |position.entryPrice - position.stopLoss| := by
  unfold monitorDecision
  rw [hind]
  simp [hto, htp2, checkTP1Condition]

/-- Indicator snapshot for the C6 witness: no TP2 trigger (RSI 50,
ADX unchanged). -/
def c6Ind : TechnicalIndicators where
  ema20 := 0
  ema30 := 0
  ema60 := 0
  adx15m := 30
  adx1h := 26
  adx4h := 29
  rsi := 50
  atr := 1

/-- Monitor tick for the C6 witness: price 101, fresh indicators,
remembered ADX equal to the current one, clock at open time. -/
def c6MonEnv : MonitorEnv where
  price := 101
  indicators := some c6Ind
  prevADX := some 30
  now := 0

/-- Concrete instantiation of `c6_tp1_full_close`. -/
theorem c6_tp1_full_close_witness :
    monitorDecision c6MonEnv getDefaultConfig c6Position = some "TP1止盈" ↔
      (if c6Position.direction = Direction.LONG
       then c6MonEnv.price - c6Position.entryPrice
       else c6Position.entryPrice - c6MonEnv.price) ≥
        |c6Position.entryPrice - c6Position.stopLoss| :=
  c6_tp1_full_close c6MonEnv getDefaultConfig c6Position c6Ind rfl
    (by simp [isPositionTimeout, c6MonEnv, c6Position, c6Ind, getDefaultConfig])
    (by simp [checkTP2Condition, c6MonEnv, c6Position, c6Ind, getDefaultConfig]
        norm_num)

/-- Advisory result for the C7 statements: full confidence, LOW risk. -/
def c7Ai : AIAnalysis where
  direction := Direction.LONG
  confidence := 100
  score := 80
  riskLevel := RiskLevel.LOW

/-- C7 counterexample: with the default dynamic-leverage configuration
(base 6, LOW multiplier 1.5, range [2,20]) and an advisory of confidence
100 at LOW risk, the code computes `round(clamp(6 · (0.5 + 1) · 1.5)) = 14`
while the claimed formula `clamp(round(6 · (0.8 + 1) · 1.5))` yields 16:
the confidence factor of the code is `0.5 + confidence/100`, not
`0.8 + confidence/100`. -/
theorem c7_counterexample :
    calculateQuickLeverage c7Ai getDefaultConfig.dynamicLeverageConfig = 14 ∧
    max getDefaultConfig.dynamicLeverageConfig.minLeverage
      (min getDefaultConfig.dynamicLeverageConfig.maxLeverage
        (jsRound (getDefaultConfig.dynamicLeverageConfig.baseLeverage *
          (8/10 + c7Ai.confidence / 100) *
          getDefaultConfig.dynamicLeverageConfig.multiplierFor c7Ai.riskLevel))) = 16 ∧
    (14 : ℚ) ≠ 16 := by
  refine ⟨?_, ?_, by norm_num⟩
  · simp [calculateQuickLeverage, jsNumOr, jsRound, c7Ai, getDefaultConfig,
      DynamicLeverageConfig.multiplierFor]
    norm_num
  · simp [jsRound, c7Ai, getDefaultConfig, DynamicLeverageConfig.multiplierFor]
    norm_num

/-- C7 (amended): when dynamic leverage is enabled and an advisory is
present, the dynamic leverage equals
`round(clamp(base · (0.5 + confidence/100) · riskMultiplier[riskLevel],
min, max))` (clamping before rounding), the safe leverage equals
`clamp(round((maxRiskPercentage/100) / stopLossDistanceFraction), 1, 20)`,
and the final leverage equals `clamp(min(dynamic, safe), min, max)`. -/
theorem c7_leverage_formulas (ai : AIAnalysis) (config : DynamicLeverageConfig)
    (accountBalance maxRiskPercentage stopLossPrice entryPrice : ℚ)
    (hmult : config.multiplierFor ai.riskLevel ≠ 0)
    (hbal : 0 < accountBalance)
    (hdist : |entryPrice - stopLossPrice| / entryPrice ≠ 0) :
    calculateQuickLeverage ai config =
      jsRound (max config.minLeverage (min config.maxLeverage
        (config.baseLeverage * (1/2 + ai.confidence / 100) *
          config.multiplierFor ai.riskLevel))) ∧
    calculateSafeLeverage accountBalance maxRiskPercentage stopLossPrice entryPrice =
      max 1 (min 20 (jsRound ((maxRiskPercentage / 100) /
        (|entryPrice - stopLossPrice| / entryPrice)))) ∧
    calculateFinalLeverage
        (calculateQuickLeverage ai config)
        (calculateSafeLeverage accountBalance maxRiskPercentage stopLossPrice entryPrice)
        config =
      max config.minLeverage (min config.maxLeverage
        (min (calculateQuickLeverage ai config)
          (calculateSafeLeverage accountBalance maxRiskPercentage stopLossPrice
            entryPrice))) := by
  refine ⟨?_, ?_, rfl⟩
  · unfold calculateQuickLeverage
    simp [jsNumOr, hmult, mul_one]
  · unfold calculateSafeLeverage
    rw [if_neg (not_le.mpr hbal), if_neg hdist]

/-- Concrete instantiation of `c7_leverage_formulas` at the default
configuration, balance 1000, entry 100, stop 99. -/
theorem c7_leverage_formulas_witness :
    calculateQuickLeverage c7Ai getDefaultConfig.dynamicLeverageConfig =
      jsRound (max getDefaultConfig.dynamicLeverageConfig.minLeverage
        (min getDefaultConfig.dynamicLeverageConfig.maxLeverage
          (getDefaultConfig.dynamicLeverageConfig.baseLeverage *
            (1/2 + c7Ai.confidence / 100) *
            getDefaultConfig.dynamicLeverageConfig.multiplierFor c7Ai.riskLevel))) ∧
    calculateSafeLeverage 1000 20 99 100 =
      max 1 (min 20 (jsRound (((20 : ℚ) / 100) / (|(100 : ℚ) - 99| / 100)))) ∧
    calculateFinalLeverage
        (calculateQuickLeverage c7Ai getDefaultConfig.dynamicLeverageConfig)
        (calculateSafeLeverage 1000 20 99 100)
        getDefaultConfig.dynamicLeverageConfig =
      max getDefaultConfig.dynamicLeverageConfig.minLeverage
        (min getDefaultConfig.dynamicLeverageConfig.maxLeverage
          (min (calculateQuickLeverage c7Ai getDefaultConfig.dynamicLeverageConfig)
            (calculateSafeLeverage 1000 20 99 100))) :=
  c7_leverage_formulas c7Ai getDefaultConfig.dynamicLeverageConfig 1000 20 99 100
    (by norm_num [getDefaultConfig, DynamicLeverageConfig.multiplierFor, c7Ai])
    (by norm_num) (by norm_num)

/-- Concrete LONG position for the C2 statements, with recorded stop-order
id `X` and stop at 49700. -/
def c2Position : Position where
  symbol := "BTC/USDT"
  direction := Direction.LONG
  entryPrice := 50000
  quantity := 1/100
  leverage := 10
  stopLoss := 49700
  takeProfit1 := 50300
  takeProfit2 := 50600
  openTime := 0
  orderId := "o2"
  stopLossOrderId := some "X"
  lastStopLossUpdate := none

/-- Closed stop order reporting an actual fill price of 49650 and an
average of 49690. -/
def c2Order : FetchedOrder where
  status := "closed"
  actualPrice := some 49650
  average := some 49690
  price := some 49695

/-- Exchange answers for the C2 counterexample: the stop order is
`c2Order`. -/
def c2Env : CompensatedEnv where
  fetchedOrder := some c2Order
  cancelOk := true
  marketPrice := 49710
  balance := 1000
  now := 7

/-- Still-open stop order with an average of 49680. -/
def c2Order2 : FetchedOrder where
  status := "open"
  actualPrice := none
  average := some 49680
  price := some 49685

/-- Exchange answers where the stop order is still open and the cancel
succeeds. -/
def c2Env2 : CompensatedEnv where
  fetchedOrder := some c2Order2
  cancelOk := true
  marketPrice := 49710
  balance := 1000
  now := 7

/-- Still-open stop order for the failed-cancel scenario. -/
def c2Order3 : FetchedOrder where
  status := "open"
  actualPrice := none
  average := some 49680
  price := none

/-- Exchange answers where the stop order is still open and the cancel
fails. -/
def c2Env3 : CompensatedEnv where
  fetchedOrder := some c2Order3
  cancelOk := false
  marketPrice := 49711
  balance := 1000
  now := 7

/-- C2 counterexample: the stop order is reported closed with
`average = 49690` present, yet the compensated close uses 49650 — the
`info.actualPrice` field — as the exit price of the appended history row,
refuting that the average is used as exit price for a closed/filled
order. -/
theorem c2_counterexample :
    (c2Env.fetchedOrder.map fun o => o.status) = some "closed" ∧
    (c2Env.fetchedOrder.bind fun o => o.average) = some 49690 ∧
    compensatedExitPrice c2Env c2Position = 49650 ∧
    ((handleCompensatedClose c2Env getDefaultConfig c2Position "止损触发"
        (getDefaultState "2026-10-12" 0)).2.map fun r => r.exitPrice) = [49650] ∧
    (49650 : ℚ) ≠ 49690 := by
  refine ⟨rfl, rfl, ?_, ?_, by norm_num⟩
  · simp [compensatedExitPrice, c2Env, c2Order, c2Position, jsNumOr]
  · simp [handleCompensatedClose, recordTrade, compensatedExitPrice, c2Env,
      c2Order, c2Position, jsNumOr]

/-- C2 (amended): on a monitor tick where the exchange reports no position
with non-zero size for the held symbol, the engine dispatches to the
compensated close (reason `止损触发` when a stop-order id is recorded),
appends exactly one trade-history row at the selected exit price, adds the
realized pnl to `dailyPnL`, increments the consecutive-loss counter on a
loss (resetting it otherwise), recomputes the circuit breaker, clears the
position, stamps `lastTradeTime`, and moves to `HALTED`/`MONITORING`
accordingly.  The exit price of a closed/filled stop order is the
exchange's `info.actualPrice` when present and non-zero (`average`,
`price` and the stored stop are only fallbacks); an unfilled stop order
that cancels cleanly yields the order's `average`/`price`/stored-stop
chain — not the market price — and only a failed cancel falls back to the
current market price. -/
theorem c2_compensated_close (env env2 env3 : CompensatedEnv)
    (config : BotConfig) (positions : List ExchPos) (position : Position)
    (state : BotState) (oid : String) (o o2 o3 : FetchedOrder) (ap : ℚ)
    (hgone : hasPositionOnExchange positions position = false)
    (hid : position.stopLossOrderId = some oid)
    (horder : env.fetchedOrder = some o)
    (hclosed : o.status = "closed" ∨ o.status = "filled")
    (hap : o.actualPrice = some ap) (hap0 : ap ≠ 0)
    (h2order : env2.fetchedOrder = some o2)
    (h2open : ¬(o2.status = "closed" ∨ o2.status = "filled"))
    (h2cancel : env2.cancelOk = true)
    (h2val : jsNumOr o2.average (jsNumOr o2.price position.stopLoss) ≠ 0)
    (h3order : env3.fetchedOrder = some o3)
    (h3open : ¬(o3.status = "closed" ∨ o3.status = "filled"))
    (h3cancel : env3.cancelOk = false)
    (h3mp : env3.marketPrice ≠ 0) :
    checkPositionConsistency env config positions position state =
      (false, handleCompensatedClose env config position "止损触发" state) ∧
    compensatedExitPrice env position = ap ∧
    compensatedExitPrice env2 position =
      jsNumOr o2.average (jsNumOr o2.price position.stopLoss) ∧
    compensatedExitPrice env3 position = env3.marketPrice ∧
    (handleCompensatedClose env config position "止损触发" state).2 =
      [recordTrade position (compensatedExitPrice env position) "止损触发" env.now] ∧
    (handleCompensatedClose env config position "止损触发" state).1.dailyPnL =
      state.dailyPnL + (calculatePnL (compensatedExitPrice env position) position).1 ∧
    (handleCompensatedClose env config position "止损触发" state).1.circuitBreaker =
      checkCircuitBreaker
        (state.dailyPnL + (calculatePnL (compensatedExitPrice env position) position).1)
        (if (calculatePnL (compensatedExitPrice env position) position).1 < 0 then
          state.circuitBreaker.consecutiveLosses + 1 else 0)
        env.balance config.riskConfig env.now ∧
    (handleCompensatedClose env config position "止损触发" state).1.currentPosition =
      none ∧
    (handleCompensatedClose env config position "止损触发" state).1.lastTradeTime =
      env.now ∧
    (handleCompensatedClose env config position "止损触发" state).1.status =
      (if ((handleCompensatedClose env config position "止损触发"
          state).1.circuitBreaker).isTriggered then PositionStatus.HALTED
       else PositionStatus.MONITORING) ∧
    (handleCompensatedClose env config position "止损触发" state).1.isRunning =
      (if ((handleCompensatedClose env config position "止损触发"
          state).1.circuitBreaker).isTriggered then false else state.isRunning) := by
  have hexit : compensatedExitPrice env position = ap := by
    have hcl := eq_true hclosed
    simp [compensatedExitPrice, hid, horder, hap, jsNumOr, hcl, hap0]
  have hexit2 : compensatedExitPrice env2 position =
      jsNumOr o2.average (jsNumOr o2.price position.stopLoss) := by
    have hs2 : (o2.status = "closed" ∨ o2.status = "filled") = False := by
      simp [h2open]
    simp [compensatedExitPrice, hid, h2order, h2cancel, hs2, h2val]
  have hexit3 : compensatedExitPrice env3 position = env3.marketPrice := by
    have hs3 : (o3.status = "closed" ∨ o3.status = "filled") = False := by
      simp [h3open]
    simp [compensatedExitPrice, hid, h3order, h3cancel, hs3, h3mp]
  refine ⟨?_, hexit, hexit2, hexit3, ?_, ?_, ?_, ?_, ?_, ?_, ?_⟩ <;>
    simp [checkPositionConsistency, handleCompensatedClose, hgone, hid]

/-- Concrete instantiation of `c2_compensated_close`: empty exchange
position list, the three exchange scenarios above, default configuration
and default state. -/
theorem c2_compensated_close_witness :
    checkPositionConsistency c2Env getDefaultConfig [] c2Position
      (getDefaultState "2026-10-12" 0) =
      (false, handleCompensatedClose c2Env getDefaultConfig c2Position "止损触发"
        (getDefaultState "2026-10-12" 0)) ∧
    compensatedExitPrice c2Env c2Position = 49650 ∧
    compensatedExitPrice c2Env2 c2Position =
      jsNumOr c2Order2.average (jsNumOr c2Order2.price c2Position.stopLoss) ∧
    compensatedExitPrice c2Env3 c2Position = c2Env3.marketPrice ∧
    (handleCompensatedClose c2Env getDefaultConfig c2Position "止损触发"
        (getDefaultState "2026-10-12" 0)).2 =
      [recordTrade c2Position (compensatedExitPrice c2Env c2Position) "止损触发"
        c2Env.now] ∧
    (handleCompensatedClose c2Env getDefaultConfig c2Position "止损触发"
        (getDefaultState "2026-10-12" 0)).1.dailyPnL =
      (getDefaultState "2026-10-12" 0).dailyPnL +
        (calculatePnL (compensatedExitPrice c2Env c2Position) c2Position).1 ∧
    (handleCompensatedClose c2Env getDefaultConfig c2Position "止损触发"
        (getDefaultState "2026-10-12" 0)).1.circuitBreaker =
      checkCircuitBreaker
        ((getDefaultState "2026-10-12" 0).dailyPnL +
          (calculatePnL (compensatedExitPrice c2Env c2Position) c2Position).1)
        (if (calculatePnL (compensatedExitPrice c2Env c2Position) c2Position).1 < 0
         then (getDefaultState "2026-10-12" 0).circuitBreaker.consecutiveLosses + 1
         else 0)
        c2Env.balance getDefaultConfig.riskConfig c2Env.now ∧
    (handleCompensatedClose c2Env getDefaultConfig c2Position "止损触发"
        (getDefaultState "2026-10-12" 0)).1.currentPosition = none ∧
    (handleCompensatedClose c2Env getDefaultConfig c2Position "止损触发"
        (getDefaultState "2026-10-12" 0)).1.lastTradeTime = c2Env.now ∧
    (handleCompensatedClose c2Env getDefaultConfig c2Position "止损触发"
        (getDefaultState "2026-10-12" 0)).1.status =
      (if ((handleCompensatedClose c2Env getDefaultConfig c2Position "止损触发"
          (getDefaultState "2026-10-12" 0)).1.circuitBreaker).isTriggered
       then PositionStatus.HALTED else PositionStatus.MONITORING) ∧
    (handleCompensatedClose c2Env getDefaultConfig c2Position "止损触发"
        (getDefaultState "2026-10-12" 0)).1.isRunning =
      (if ((handleCompensatedClose c2Env getDefaultConfig c2Position "止损触发"
          (getDefaultState "2026-10-12" 0)).1.circuitBreaker).isTriggered
       then false else (getDefaultState "2026-10-12" 0).isRunning) :=
  c2_compensated_close c2Env c2Env2 c2Env3 getDefaultConfig [] c2Position
    (getDefaultState "2026-10-12" 0) "X" c2Order c2Order2 c2Order3 49650
    rfl rfl rfl (Or.inl rfl) rfl (by norm_num) rfl (by decide) rfl
    (by norm_num [jsNumOr, c2Order2]) rfl (by decide) rfl (by norm_num [c2Env3])

/-- A successful `openPositionAfterOpening` leaves `lastTradeTime`
untouched: the success branch only rewrites `currentPosition`, `status`
and `todayTrades`. -/
theorem openAfter_lastTradeTime (env : OpenEnv) (config : BotConfig)
    (signal : TradeSignal) (st0 st' : BotState)
    (h : openPositionAfterOpening env config signal st0 = some st') :
    st'.lastTradeTime = st0.lastTradeTime := by
  unfold openPositionAfterOpening at h
  dsimp only at h
  repeat' split at h
  all_goals try exact Option.noConfusion h
  all_goals injection h with h
  all_goals subst h
  all_goals rfl

/-- Inversion of a successful `openPositionAfterOpening` run: the
confirmation answered `true`, a non-zero exchange position was found, and
the final state stores a position whose quantity is the exchange-reported
one, with `status = POSITION` and `todayTrades` bumped. -/
theorem openAfter_inv (env : OpenEnv) (config : BotConfig)
    (signal : TradeSignal) (st0 st' : BotState)
    (h : openPositionAfterOpening env config signal st0 = some st') :
    env.confirmResult = some true ∧
    ∃ rp pos, realPositionOf env = some rp ∧
      st' = { st0 with
        currentPosition := some pos
        status := PositionStatus.POSITION
        todayTrades := st0.todayTrades + 1 } ∧
      pos.quantity = rp.quantity := by
  unfold openPositionAfterOpening at h
  dsimp only at h
  repeat' split at h
  all_goals try exact Option.noConfusion h
  all_goals injection h with h
  all_goals subst h
  all_goals exact ⟨by assumption, _, _, by assumption, rfl, rfl⟩

/-- Monitor-tick exchange answers and one open run for the C4 statements:
the entry succeeds, with the clock at 1000. -/
def c4Env : OpenEnv where
  availableBalance := 1000
  setLeverageOk := true
  setMarginOk := true
  orderQty := fun _ => 1/100
  marketOrderOk := true
  marketOrderId := "m4"
  confirmResult := some true
  finalPositions := [{ symbol := "BTC/USDT", quantity := 1/100 }]
  stopOrderOk := true
  stopOrderId := "s4"
  now := 1000

/-- Signal for the C4 statements (no advisory, so the static leverage
path is taken). -/
def c4Signal : TradeSignal where
  symbol := "BTC/USDT"
  direction := Direction.LONG
  price := 50000
  confidence := 75
  indicators :=
    { ema20 := 49950, ema30 := 49900, ema60 := 49500, adx15m := 25
      adx1h := 28, adx4h := 30, rsi := 52, atr := 200 }
  aiAnalysis := none
  timestamp := 0

/-- Monitoring state before the C4 entry, with `lastTradeTime = 0`. -/
def c4State : BotState :=
  { getDefaultState "2026-10-12" 0 with
    status := PositionStatus.MONITORING
    isRunning := true }

/-- The C4 exchange answers locate the non-zero position. -/
theorem c4_realPosition :
    realPositionOf c4Env = some { symbol := "BTC/USDT", quantity := 1/100 } := by
  unfold realPositionOf c4Env
  rw [List.find?_cons_of_pos]
  rw [decide_eq_true_eq]
  norm_num

/-- C4 counterexample: a confirmed entry (final status `POSITION`) that
leaves `lastTradeTime` at its old value 0 although the clock stands at
1000 — the opener never stamps `lastTradeTime`, refuting that it is set
on every confirmed entry. -/
theorem c4_counterexample :
    (openPosition c4Env getDefaultConfig c4Signal c4State).1.status =
      PositionStatus.POSITION ∧
    (openPosition c4Env getDefaultConfig c4Signal c4State).1.lastTradeTime = 0 ∧
    c4Env.now = 1000 ∧ (0 : ℕ) ≠ 1000 := by
  have hrun : openPosition c4Env getDefaultConfig c4Signal c4State =
      (({ c4State with
          currentPosition := some
            { symbol := "BTC/USDT", direction := Direction.LONG
              entryPrice := 50000, quantity := 1/100, leverage := 10
              stopLoss := 49700, takeProfit1 := 50300, takeProfit2 := 50600
              openTime := 1000, orderId := "m4", stopLossOrderId := some "s4"
              lastStopLossUpdate := none }
          status := PositionStatus.POSITION
          todayTrades := c4State.todayTrades + 1 } : BotState), ([] : List TradeHistory)) := by
    unfold openPosition openPositionAfterOpening
    rw [c4_realPosition]
    norm_num [c4Env, c4Signal, calculateStopLoss, calculateTakeProfit,
      calculatePositionSize, calculateMaxUsdtAmount, getDefaultConfig]
    exact fun h => nomatch h
  rw [hrun]
  exact ⟨rfl, rfl, rfl, by norm_num⟩

/-- C4 (amended): `lastTradeTime` is stamped with the current time on
every compensated close, but not on a confirmed entry — the opener leaves
it unchanged on every path — and no cooldown gating exists: the scanner's
entry gate reads only `allowNewTrades` and the daily trade limit, so it is
unaffected by `lastTradeTime` and `tradeCooldownInterval`. -/
theorem c4_last_trade_time (cenv : CompensatedEnv) (config : BotConfig)
    (position : Position) (reason : String) (state : BotState)
    (oenv : OpenEnv) (signal : TradeSignal) (t : ℕ) :
    (handleCompensatedClose cenv config position reason state).1.lastTradeTime =
      cenv.now ∧
    (openPosition oenv config signal state).1.lastTradeTime =
      state.lastTradeTime ∧
    scannerAttemptsEntry { state with lastTradeTime := t } config =
      scannerAttemptsEntry state config := by
  refine ⟨by simp [handleCompensatedClose], ?_, by simp [scannerAttemptsEntry]⟩
  unfold openPosition
  split
  · rfl
  · split
    · rfl
    · dsimp only
      cases hres : openPositionAfterOpening oenv config signal
          { state with status := PositionStatus.OPENING } with
      | none => rfl
      | some st' =>
        simpa using openAfter_lastTradeTime oenv config signal _ st' hres

/-- C1: every `openPosition` run that reaches `status = OPENING` (i.e.
passes the IDLE-direction and minimum-balance guards) either ends with a
confirmed position stored in state — `status = POSITION`, the stored
quantity being the exchange-reported one and `todayTrades` bumped — or
ends in exactly the prior state with `status` reverted to `MONITORING`:
no partial position, no trade counter change.  No history row is ever
appended, and when the confirmation retries report no non-zero position
(`confirmResult = some false`) the reverted outcome is forced. -/
theorem c1_open_position (env : OpenEnv) (config : BotConfig)
    (signal : TradeSignal) (state : BotState)
    (hdir : signal.direction ≠ Direction.IDLE)
    (hbal : ¬env.availableBalance < 120) :
    (openPosition env config signal state).2 = [] ∧
    ((∃ rp pos, realPositionOf env = some rp ∧
        (openPosition env config signal state).1 =
          { state with
            currentPosition := some pos
            status := PositionStatus.POSITION
            todayTrades := state.todayTrades + 1 } ∧
        pos.quantity = rp.quantity) ∨
      (openPosition env config signal state).1 =
        { state with status := PositionStatus.MONITORING }) ∧
    (env.confirmResult = some false →
      (openPosition env config signal state).1 =
        { state with status := PositionStatus.MONITORING }) := by
  unfold openPosition
  rw [if_neg hdir, if_neg hbal]
  dsimp only
  cases hres : openPositionAfterOpening env config signal
      { state with status := PositionStatus.OPENING } with
  | none => exact ⟨rfl, Or.inr rfl, fun _ => rfl⟩
  | some st' =>
    obtain ⟨hconf, rp, pos, hrp, hst, hqty⟩ :=
      openAfter_inv env config signal _ st' hres
    refine ⟨rfl, Or.inl ⟨rp, pos, hrp, ?_, hqty⟩, fun hcf => ?_⟩
    · rw [hst]
    · rw [hconf] at hcf
      exact absurd hcf (by simp)

/-- Open run for the C1 witness: balance 800, confirmed entry, the
exchange reporting a filled quantity of 3/1000. -/
def c1Env : OpenEnv where
  availableBalance := 800
  setLeverageOk := true
  setMarginOk := true
  orderQty := fun _ => 3/1000
  marketOrderOk := true
  marketOrderId := "m1"
  confirmResult := some true
  finalPositions := [{ symbol := "ETH/USDT", quantity := 3/1000 }]
  stopOrderOk := true
  stopOrderId := "s1"
  now := 77

/-- Signal for the C1 witness. -/
def c1Signal : TradeSignal where
  symbol := "ETH/USDT"
  direction := Direction.SHORT
  price := 20000
  confidence := 75
  indicators :=
    { ema20 := 20010, ema30 := 20020, ema60 := 20100, adx15m := 25
      adx1h := 28, adx4h := 30, rsi := 48, atr := 100 }
  aiAnalysis := none
  timestamp := 0

/-- Concrete instantiation of `c1_open_position`. -/
theorem c1_open_position_witness :
    (openPosition c1Env getDefaultConfig c1Signal
        (getDefaultState "2026-10-12" 0)).2 = [] ∧
    ((∃ rp pos, realPositionOf c1Env = some rp ∧
        (openPosition c1Env getDefaultConfig c1Signal
            (getDefaultState "2026-10-12" 0)).1 =
          { getDefaultState "2026-10-12" 0 with
            currentPosition := some pos
            status := PositionStatus.POSITION
            todayTrades := (getDefaultState "2026-10-12" 0).todayTrades + 1 } ∧
        pos.quantity = rp.quantity) ∨
      (openPosition c1Env getDefaultConfig c1Signal
          (getDefaultState "2026-10-12" 0)).1 =
        { getDefaultState "2026-10-12" 0 with
          status := PositionStatus.MONITORING }) ∧
    (c1Env.confirmResult = some false →
      (openPosition c1Env getDefaultConfig c1Signal
          (getDefaultState "2026-10-12" 0)).1 =
        { getDefaultState "2026-10-12" 0 with
          status := PositionStatus.MONITORING }) :=
  c1_open_position c1Env getDefaultConfig c1Signal (getDefaultState "2026-10-12" 0)
    (by simp [c1Signal]) (by norm_num [c1Env])

/-- For a LONG position, `calculateTrailingStopLoss` only requests an
update with a candidate strictly above the current stop. -/
theorem calcTrailing_long_update (currentPrice : ℚ) (position : Position)
    (atr : ℚ) (config : TrailingStopConfig) (ns : ℚ)
    (hdir : position.direction = Direction.LONG)
    (hns : (calculateTrailingStopLoss currentPrice position atr
      config).newStopLoss = some ns)
    (hup : (calculateTrailingStopLoss currentPrice position atr
      config).shouldUpdate = true) :
    position.stopLoss < ns := by
  unfold calculateTrailingStopLoss at hns hup
  rw [hdir] at hns hup
  dsimp only at hns hup
  split_ifs at hns hup <;> simp_all

/-- For a SHORT position, `calculateTrailingStopLoss` only requests an
update with a candidate strictly below the current stop. -/
theorem calcTrailing_short_update (currentPrice : ℚ) (position : Position)
    (atr : ℚ) (config : TrailingStopConfig) (ns : ℚ)
    (hdir : position.direction = Direction.SHORT)
    (hns : (calculateTrailingStopLoss currentPrice position atr
      config).newStopLoss = some ns)
    (hup : (calculateTrailingStopLoss currentPrice position atr
      config).shouldUpdate = true) :
    ns < position.stopLoss := by
  unfold calculateTrailingStopLoss at hns hup
  rw [hdir] at hns hup
  dsimp only at hns hup
  split_ifs at hns hup <;> simp_all

/-- A trailing-stop step never changes the position's direction. -/
theorem applyTrailingStep_direction (config : BotConfig) (env : TrailStepEnv)
    (position : Position) :
    (applyTrailingStep config env position).direction = position.direction := by
  unfold applyTrailingStep
  dsimp only
  repeat' split
  all_goals rfl

/-- A trailing-stop step never lowers a LONG position's stop. -/
theorem applyTrailingStep_stopLoss_le (config : BotConfig) (env : TrailStepEnv)
    (position : Position) (hdir : position.direction = Direction.LONG) :
    position.stopLoss ≤ (applyTrailingStep config env position).stopLoss := by
  unfold applyTrailingStep
  dsimp only
  split
  · exact le_refl _
  · split
    · exact le_refl _
    · cases heq : (calculateTrailingStopLoss env.price position env.atr
          config.trailingStopConfig).newStopLoss with
      | none => exact le_refl _
      | some ns =>
        dsimp only
        split_ifs with hcond
        · rw [Bool.and_eq_true, Bool.and_eq_true] at hcond
          exact (calcTrailing_long_update env.price position env.atr
            config.trailingStopConfig ns hdir heq hcond.1.1).le
        · exact le_refl _

/-- A trailing-stop step never raises a SHORT position's stop. -/
theorem applyTrailingStep_stopLoss_ge (config : BotConfig) (env : TrailStepEnv)
    (position : Position) (hdir : position.direction = Direction.SHORT) :
    (applyTrailingStep config env position).stopLoss ≤ position.stopLoss := by
  unfold applyTrailingStep
  dsimp only
  split
  · exact le_refl _
  · split
    · exact le_refl _
    · cases heq : (calculateTrailingStopLoss env.price position env.atr
          config.trailingStopConfig).newStopLoss with
      | none => exact le_refl _
      | some ns =>
        dsimp only
        split_ifs with hcond
        · rw [Bool.and_eq_true, Bool.and_eq_true] at hcond
          exact (calcTrailing_short_update env.price position env.atr
            config.trailingStopConfig ns hdir heq hcond.1.1).le
        · exact le_refl _

/-- The sequence of position snapshots produced by iterating trailing-stop
monitor steps, starting from the open position. -/
def trailTrace (config : BotConfig) (position : Position) :
    List TrailStepEnv → List Position
  | [] => [position]
  | e :: es => position :: trailTrace config (applyTrailingStep config e position) es

/-- `trailTrace` always starts with its initial position. -/
theorem trailTrace_cons_shape (config : BotConfig) (q : Position) :
    ∀ es : List TrailStepEnv,
      ∃ rest, trailTrace config q es = q :: rest
  | [] => ⟨[], rfl⟩
  | e :: es => ⟨trailTrace config (applyTrailingStep config e q) es, rfl⟩

/-- Monotone chain for LONG positions. -/
theorem trailTrace_chain_long (config : BotConfig) :
    ∀ (steps : List TrailStepEnv) (position : Position),
      position.direction = Direction.LONG →
      List.Chain' (fun a b => a.stopLoss ≤ b.stopLoss)
        (trailTrace config position steps)
  | [], position, _ => by simp [trailTrace]
  | e :: es, position, hdir => by
    have hdir' : (applyTrailingStep config e position).direction =
        Direction.LONG := by
      rw [applyTrailingStep_direction, hdir]
    have hrec := trailTrace_chain_long config es
      (applyTrailingStep config e position) hdir'
    have hle := applyTrailingStep_stopLoss_le config e position hdir
    obtain ⟨rest, hshape⟩ :=
      trailTrace_cons_shape config (applyTrailingStep config e position) es
    show List.Chain' (fun a b => a.stopLoss ≤ b.stopLoss)
      (position :: trailTrace config (applyTrailingStep config e position) es)
    rw [hshape] at hrec ⊢
    exact List.chain'_cons.mpr ⟨hle, hrec⟩

/-- Monotone chain for SHORT positions. -/
theorem trailTrace_chain_short (config : BotConfig) :
    ∀ (steps : List TrailStepEnv) (position : Position),
      position.direction = Direction.SHORT →
      List.Chain' (fun a b => b.stopLoss ≤ a.stopLoss)
        (trailTrace config position steps)
  | [], position, _ => by simp [trailTrace]
  | e :: es, position, hdir => by
    have hdir' : (applyTrailingStep config e position).direction =
        Direction.SHORT := by
      rw [applyTrailingStep_direction, hdir]
    have hrec := trailTrace_chain_short config es
      (applyTrailingStep config e position) hdir'
    have hge := applyTrailingStep_stopLoss_ge config e position hdir
    obtain ⟨rest, hshape⟩ :=
      trailTrace_cons_shape config (applyTrailingStep config e position) es
    show List.Chain' (fun a b => b.stopLoss ≤ a.stopLoss)
      (position :: trailTrace config (applyTrailingStep config e position) es)
    rw [hshape] at hrec ⊢
    exact List.chain'_cons.mpr ⟨hge, hrec⟩

/-- C5: across any sequence of trailing-stop monitor steps, the stop only
ever moves in the profitable direction: for a LONG position every
successive `stopLoss` value is ≥ the previous one and for a SHORT
position every successive value is ≤ the previous one (a step mutates the
stop only when the candidate strictly improves it, otherwise the value is
kept unchanged). -/
theorem c5_stop_monotonicity (config : BotConfig) (steps : List TrailStepEnv)
    (position : Position) :
    (position.direction = Direction.LONG →
      List.Chain' (fun a b => a.stopLoss ≤ b.stopLoss)
        (trailTrace config position steps)) ∧
    (position.direction = Direction.SHORT →
      List.Chain' (fun a b => b.stopLoss ≤ a.stopLoss)
        (trailTrace config position steps)) :=
  ⟨trailTrace_chain_long config steps position,
   trailTrace_chain_short config steps position⟩

/-- LONG position for the C5 witness. -/
def c5Position : Position where
  symbol := "BTC/USDT"
  direction := Direction.LONG
  entryPrice := 50000
  quantity := 1/100
  leverage := 10
  stopLoss := 49700
  takeProfit1 := 50300
  takeProfit2 := 50600
  openTime := 0
  orderId := "o5"
  stopLossOrderId := some "s5"
  lastStopLossUpdate := none

/-- Two monitor steps for the C5 witness: a rising price activating the
trail, then a pullback. -/
def c5Steps : List TrailStepEnv :=
  [{ price := 50400, atr := 200, now := 61000, stopOrderOk := true
     newStopOrderId := "s5b" },
   { price := 50200, atr := 200, now := 122000, stopOrderOk := true
     newStopOrderId := "s5c" }]

/-- Concrete instantiation of `c5_stop_monotonicity` on a LONG position
over two monitor steps. -/
theorem c5_stop_monotonicity_witness :
    List.Chain' (fun a b => a.stopLoss ≤ b.stopLoss)
      (trailTrace getDefaultConfig c5Position c5Steps) :=
  (c5_stop_monotonicity getDefaultConfig c5Steps c5Position).1 rfl
